import Mathlib

/-!
Verification of the community-pharmacy workforce projection core.

The Python source (src/config.py, src/input_data.py, src/project_workforce.py)
is shallowly embedded below: floats are modelled by an arbitrary linear ordered
field with a floor (instantiated at ℚ for executable checks and at ℝ where the
source takes real roots), Python `round(x, n)` by decimal round-half-to-even,
dicts by association lists in insertion order, and raising exceptions by
`Except`.
-/

namespace Pharmacy

/-! ### Configuration constants (src/config.py) -/

def BASELINE_YEAR : ℤ := 2025

def BASELINE_MONTH : ℤ := 3

def DURATION : ℕ := 10

def START_PROJECTION_YEAR : ℤ := 2025

def OPS_GROWTH_RATE_PCT : ℚ := 1/10

/-! ### Python rounding

Python's builtin `round(x, n)` rounds to `n` decimal places, ties to even;
`int(round(x))` rounds to the nearest integer, ties to even. -/

/-- Round to the nearest integer, ties to the even integer
(the semantics of Python's builtin `round`). -/
def rhe {α : Type} [LinearOrderedField α] [FloorRing α] (x : α) : ℤ :=
  if x - (⌊x⌋ : α) < 1/2 then ⌊x⌋
  else if 1/2 < x - (⌊x⌋ : α) then ⌊x⌋ + 1
  else if ⌊x⌋ % 2 = 0 then ⌊x⌋ else ⌊x⌋ + 1

/-- Python `round(x, n)`: round to `n` decimal places, ties to even. -/
def roundDec {α : Type} [LinearOrderedField α] [FloorRing α] (n : ℕ) (x : α) : α :=
  (rhe (x * (10 : α) ^ n) : α) / (10 : α) ^ n

/-! ### Projection engine (src/project_workforce.py, `_project_scenarios`)

The loop keeps a running `current_total`; year 0 is the anchor point and each
later year applies `change = round(current_total * (adjusted_growth_rate / 100), 5)`
followed by `current_total = round(current_total + change, 5)`. -/

/-- One projected data point, as appended by `_project_scenarios`. -/
structure ProjPoint (α : Type) where
  year : ℤ
  total : α
  change : α
  scenario : String
  deriving DecidableEq, Repr

/-- The running `current_total` of the `_project_scenarios` loop after `n`
iterations (year `n`), for one scenario with adjusted rate `rate`. -/
def totalAt {α : Type} [LinearOrderedField α] [FloorRing α] (base rate : α) : ℕ → α
  | 0 => base
  | n + 1 =>
    let change := roundDec 5 (totalAt base rate n * (rate / 100))
    roundDec 5 (totalAt base rate n + change)

/-- The `change` recorded at year `n` by the `_project_scenarios` loop
(0 at the anchor year). -/
def changeAt {α : Type} [LinearOrderedField α] [FloorRing α] (base rate : α) : ℕ → α
  | 0 => 0
  | n + 1 => roundDec 5 (totalAt base rate n * (rate / 100))

/-- The projection list built by the `_project_scenarios` loop for one scenario:
point `k` carries year `startYear + k` and the running total and change. -/
def projectScenario {α : Type} [LinearOrderedField α] [FloorRing α]
    (startYear : ℤ) (name : String) (base rate : α) (d : ℕ) : List (ProjPoint α) :=
  (List.range (d + 1)).map fun k : ℕ =>
    ⟨startYear + (k : ℤ), totalAt base rate k, changeAt base rate k, name⟩

/-- `_project_scenarios(baseline_value, growth_rate_pct, scenarios, duration)`:
for each scenario the growth rate is adjusted by the scenario multiplier
(`adjusted_growth_rate = growth_rate_pct * adjustment`) before projecting. -/
def projectScenarios {α : Type} [LinearOrderedField α] [FloorRing α]
    (base rate : α) (scenarios : List (String × α)) (d : ℕ) :
    List (String × List (ProjPoint α)) :=
  scenarios.map fun s => (s.1, projectScenario START_PROJECTION_YEAR s.1 base (rate * s.2) d)

/-! ### Scenario generation (src/input_data.py, `create_scenarios`) -/

/-- `create_scenarios(rates_dict)`: both the empty-input branch and the
non-empty branch return the same three fixed multipliers. -/
def create_scenarios {β α : Type} [DivisionRing α] (rates_dict : List (String × β)) :
    List (String × α) :=
  if rates_dict.isEmpty then
    [("baseline", 1), ("optimistic", 12/10), ("pessimistic", 8/10)]
  else
    [("baseline", 1), ("optimistic", 12/10), ("pessimistic", 8/10)]

end Pharmacy

namespace Pharmacy

/-! ### Growth-rate calculation (src/input_data.py, `calculate_annual_growth_rates`)

The snapshot table is a list of rows in original order; pandas `.unique()`
keeps first-occurrence order; `.values[0]` on a year-filtered frame is the
first row carrying that year.  Python float arithmetic, including
`** (1 / years_elapsed)`, is modelled over ℝ; the `ZeroDivisionError` raised
by `baseline_total / earliest_total` on a zero denominator aborts the whole
call and is modelled by `Except.error`. -/

/-- One row of the snapshot DataFrame `total_df` (England, census month). -/
structure SnapshotRow where
  profession : String
  year : ℤ
  registrants : ℤ
  deriving DecidableEq, Repr

/-- First-occurrence-order deduplication, the order `pandas.unique` keeps. -/
def uniqueList {α : Type} [DecidableEq α] : List α → List α
  | [] => []
  | x :: xs => x :: uniqueList (xs.filter (fun y => y ≠ x))
termination_by l => l.length
decreasing_by
  simp only [List.length_cons]
  exact Nat.lt_succ_of_le (List.length_filter_le _ _)

/-- `total_df[total_df['profession'] == profession]`. -/
def professionRows (df : List SnapshotRow) (p : String) : List SnapshotRow :=
  df.filter (fun r => r.profession = p)

/-- `available_years = sorted(profession_df['year'].unique())` (as the set of
distinct years; only its size, membership, min and max are consumed). -/
def availableYears (df : List SnapshotRow) (p : String) : List ℤ :=
  uniqueList ((professionRows df p).map (·.year))

/-- The baseline year after the fallback: `BASELINE_YEAR` if present in the
series, else `max(available_years)`. -/
def effBaselineYear (df : List SnapshotRow) (p : String) : ℤ :=
  if BASELINE_YEAR ∈ availableYears df p then BASELINE_YEAR
  else (availableYears df p).max?.getD 0

/-- `earliest_year = min(available_years)`. -/
def earliestYear (df : List SnapshotRow) (p : String) : ℤ :=
  (availableYears df p).min?.getD 0

/-- `int(baseline['registrants'].values[0])` for the baseline-year rows
(`none` when that frame is empty). -/
def baselineTotalOf (df : List SnapshotRow) (p : String) : Option ℤ :=
  ((professionRows df p).find? (fun r => r.year = effBaselineYear df p)).map (·.registrants)

/-- `int(earliest['registrants'].values[0])` for the earliest-year rows
(`none` when that frame is empty). -/
def earliestTotalOf (df : List SnapshotRow) (p : String) : Option ℤ :=
  ((professionRows df p).find? (fun r => r.year = earliestYear df p)).map (·.registrants)

/-- `annual_growth_rate_pct = ((growth_factor ** (1 / years_elapsed)) - 1) * 100`
with `growth_factor = baseline_total / earliest_total`. -/
noncomputable def annualGrowthRatePct (baseline_total earliest_total years_elapsed : ℤ) : ℝ :=
  (((baseline_total : ℝ) / (earliest_total : ℝ)) ^ ((1 : ℝ) / (years_elapsed : ℝ)) - 1) * 100

/-- The per-profession record stored by `calculate_annual_growth_rates`. -/
structure RateData where
  annual_growth_rate_pct : ℝ
  annual_change_estimate : ℝ
  change_period : ℤ
  years_elapsed : ℤ

/-- Outcome of one iteration of the profession loop: `continue` on a data
problem, `ZeroDivisionError`, or a stored record. -/
inductive ProcResult where
  | skip
  | zeroDiv
  | ok (rd : RateData)

/-- The body of the profession loop of `calculate_annual_growth_rates`:
skip on fewer than 2 distinct years, on a missing baseline/earliest row or on
`earliest_year == baseline_year`; raise on a zero denominator; otherwise store
the 2-decimal-rounded CAGR and the 1-decimal-rounded annual change. -/
noncomputable def processProfession (df : List SnapshotRow) (p : String) : ProcResult :=
  if (availableYears df p).length < 2 then .skip
  else
    match baselineTotalOf df p with
    | none => .skip
    | some baseline_total =>
      if earliestYear df p = effBaselineYear df p then .skip
      else
        match earliestTotalOf df p with
        | none => .skip
        | some earliest_total =>
          let years_elapsed := effBaselineYear df p - earliestYear df p
          if earliest_total = 0 then .zeroDiv
          else
            .ok ⟨roundDec 2 (annualGrowthRatePct baseline_total earliest_total years_elapsed),
                 roundDec 1 (((baseline_total - earliest_total : ℤ) : ℝ) / (years_elapsed : ℝ)),
                 baseline_total - earliest_total,
                 years_elapsed⟩

/-- `total_df['profession'].unique()`. -/
def uniqueProfessions (df : List SnapshotRow) : List String :=
  uniqueList (df.map (·.profession))

/-- The profession loop: skipped professions leave no entry, a zero
denominator aborts the call, stored records keep profession order. -/
noncomputable def calcRatesGo (df : List SnapshotRow) :
    List String → Except String (List (String × RateData))
  | [] => .ok []
  | p :: ps =>
    match processProfession df p with
    | .skip => calcRatesGo df ps
    | .zeroDiv => .error "ZeroDivisionError"
    | .ok rd => (calcRatesGo df ps).map (fun rest => (p, rd) :: rest)

/-- `calculate_annual_growth_rates(total_df)`. -/
noncomputable def calculate_annual_growth_rates (df : List SnapshotRow) :
    Except String (List (String × RateData)) :=
  calcRatesGo df (uniqueProfessions df)

/-- `project_workforce_supply(baseline, growth_rates, duration)`: iterate the
growth-rate dict, skip professions missing from `baseline`, and feed the
stored `annual_growth_rate_pct` field into `_project_scenarios`. -/
noncomputable def project_workforce_supply (baseline : List (String × ℝ))
    (growth_rates : List (String × RateData)) (duration : ℕ) :
    List (String × List (String × List (ProjPoint ℝ))) :=
  growth_rates.filterMap fun pr =>
    match baseline.lookup pr.1 with
    | none => none
    | some b =>
      some (pr.1, projectScenarios b pr.2.annual_growth_rate_pct
        (create_scenarios growth_rates) duration)

/-- `project_pharmacy_ops(baseline_ops_fte, duration)`: fixed 0.1% rate and
the default scenarios from `create_scenarios({})`. -/
def project_pharmacy_ops (baseline_ops_fte : ℚ) (duration : ℕ) :
    List (String × List (ProjPoint ℚ)) :=
  projectScenarios baseline_ops_fte OPS_GROWTH_RATE_PCT
    (create_scenarios ([] : List (String × ℚ))) duration

end Pharmacy

namespace Pharmacy

/-! ### Formatting and gap analysis (src/project_workforce.py, `format_projections`)

DataFrames are modelled as lists of rows; `int(round(x))` is `rhe`;
`groupby(...).sum()` emits one row per distinct key (its internal ordering is
irrelevant here because the gap table is subsequently sorted);
`merge(..., how='inner')` pairs each left row with every matching right row;
`sort_values(['scenario', 'year'])` is a stable sort by that lexicographic
key.  Python's duck-typed `projections` argument is a dict whose values are
either point lists (ops-shaped) or scenario dicts (supply-shaped); iterating a
scenario dict where a point list is expected raises `TypeError`, and calling
`.items()` on a point list raises `AttributeError`. -/

/-- Modelled from the spec: `calendar_to_financial_year` is imported from
`utils` by config.py and the plotting code but is absent from the source tree;
the spec defines it as calendar year `Y ↦ "Y/(Y+1) mod 100"`, 2025 ↦ "2025/26". -/
def calendar_to_financial_year (y : ℤ) : String :=
  toString y ++ "/" ++
    (if (y + 1) % 100 < 10 then "0" ++ toString ((y + 1) % 100)
     else toString ((y + 1) % 100))

/-- One row of a formatted supply DataFrame (profession, year,
financial_year, total_registrants, annual_change, scenario). -/
structure SupplyRow where
  profession : String
  year : ℤ
  financial_year : String
  total_registrants : ℤ
  annual_change : ℤ
  scenario : String
  deriving DecidableEq, Repr

/-- One row of the formatted ops DataFrame. -/
structure OpsRow where
  year : ℤ
  financial_year : String
  total_ops_fte : ℤ
  annual_change : ℤ
  scenario : String
  deriving DecidableEq, Repr

/-- The supply branch of `format_projections` on already-typed supply data:
one DataFrame per profession, values integer-rounded, financial-year column
added (`add_financial_year_column` is modelled from the spec as appending
`calendar_to_financial_year(year)` to every row). -/
def formatSupplyRows {α : Type} [LinearOrderedField α] [FloorRing α]
    (projections : List (String × List (String × List (ProjPoint α)))) :
    List (String × List SupplyRow) :=
  projections.map fun pr =>
    (pr.1, pr.2.flatMap fun s =>
      s.2.map fun pt =>
        ⟨pr.1, pt.year, calendar_to_financial_year pt.year,
         rhe pt.total, rhe pt.change, s.1⟩)

/-- The ops branch of `format_projections` on already-typed ops data. -/
def formatOpsRows {α : Type} [LinearOrderedField α] [FloorRing α]
    (projections : List (String × List (ProjPoint α))) : List OpsRow :=
  projections.flatMap fun s =>
    s.2.map fun pt =>
      ⟨pt.year, calendar_to_financial_year pt.year, rhe pt.total, rhe pt.change, s.1⟩

/-- A keyed total: one row of `supply_total` or `ops_prepared`. -/
structure KeyedVal where
  year : ℤ
  financial_year : String
  scenario : String
  value : ℤ
  deriving DecidableEq, Repr

/-- The `(year, financial_year, scenario)` key of a supply row. -/
def supplyKeyOf (r : SupplyRow) : ℤ × String × String :=
  (r.year, r.financial_year, r.scenario)

/-- `groupby(['year', 'financial_year', 'scenario'])['total_registrants'].sum()`:
one row per distinct key carrying the group sum. -/
def supplyTotals (rows : List SupplyRow) : List KeyedVal :=
  (uniqueList (rows.map supplyKeyOf)).map fun k =>
    ⟨k.1, k.2.1, k.2.2,
     ((rows.filter (fun r => supplyKeyOf r = k)).map (·.total_registrants)).sum⟩

/-- One row of the final gap DataFrame. -/
structure GapRow where
  year : ℤ
  financial_year : String
  scenario : String
  supply : ℤ
  ops : ℤ
  gap : ℤ
  deriving DecidableEq, Repr

/-- `supply_total.merge(ops_prepared, on=['year', 'financial_year', 'scenario'],
how='inner')` followed by `gap_df['gap'] = gap_df['supply'] - gap_df['ops']`. -/
def mergeGap (supply ops : List KeyedVal) : List GapRow :=
  supply.flatMap fun s =>
    (ops.filter fun o =>
        o.year = s.year ∧ o.financial_year = s.financial_year ∧
        o.scenario = s.scenario).map
      fun o => ⟨s.year, s.financial_year, s.scenario, s.value, o.value,
                s.value - o.value⟩

/-- The `sort_values(['scenario', 'year'])` order on gap rows. -/
def gapLE (a b : GapRow) : Prop :=
  a.scenario < b.scenario ∨ (a.scenario = b.scenario ∧ a.year ≤ b.year)

instance : DecidableRel gapLE := fun a b => by
  unfold gapLE
  exact inferInstance

instance : IsTrans GapRow gapLE where
  trans a b c hab hbc := by
    rcases hab with h1 | ⟨h1, h2⟩ <;> rcases hbc with h3 | ⟨h3, h4⟩
    · exact Or.inl (lt_trans h1 h3)
    · exact Or.inl (h3 ▸ h1)
    · exact Or.inl (h1 ▸ h3)
    · exact Or.inr ⟨h1.trans h3, le_trans h2 h4⟩

instance : IsTotal GapRow gapLE where
  total a b := by
    rcases lt_trichotomy a.scenario b.scenario with h | h | h
    · exact Or.inl (Or.inl h)
    · rcases le_total a.year b.year with hy | hy
      · exact Or.inl (Or.inr ⟨h, hy⟩)
      · exact Or.inr (Or.inr ⟨h.symm, hy⟩)
    · exact Or.inr (Or.inl h)

/-- Lines 208-240 of project_workforce.py: flatten the per-profession
DataFrames, sum supply by key, prepare ops, inner-merge, add the gap column
and sort by `(scenario, year)`. -/
def gapAnalysis (formattedSupply : List (String × List SupplyRow))
    (opsRows : List OpsRow) : List GapRow :=
  let supplyRows := formattedSupply.flatMap (·.2)
  let supplyTot := supplyTotals supplyRows
  let opsPrep := opsRows.map fun r =>
    KeyedVal.mk r.year r.financial_year r.scenario r.total_ops_fte
  List.insertionSort gapLE (mergeGap supplyTot opsPrep)

/-- A value of the duck-typed `projections` dict: either a list of points
(ops-shaped) or a scenario dict (supply-shaped). -/
inductive PyProj (α : Type) where
  | pts (l : List (ProjPoint α))
  | scen (m : List (String × List (ProjPoint α)))

/-- The possible return shapes of `format_projections`. -/
inductive FormatResult where
  | supply (m : List (String × List SupplyRow))
  | ops (rows : List OpsRow)
  | gap (rows : List GapRow)

/-- The ops branch of `format_projections` applied to the whole input dict:
iterating a scenario dict where a point list is expected raises `TypeError`
(`point['year']` on a string key). -/
def formatOpsShaped {α : Type} [LinearOrderedField α] [FloorRing α] :
    List (String × PyProj α) → Except String (List OpsRow)
  | [] => .ok []
  | (_, PyProj.scen _) :: _ => .error "TypeError"
  | (n, PyProj.pts l) :: rest =>
    (formatOpsShaped rest).map fun rs =>
      (l.map fun pt =>
        OpsRow.mk pt.year (calendar_to_financial_year pt.year)
          (rhe pt.total) (rhe pt.change) n) ++ rs

/-- The supply branch of `format_projections` applied to the whole input
dict: `.items()` on a point list raises `AttributeError`. -/
def formatSupplyShaped {α : Type} [LinearOrderedField α] [FloorRing α] :
    List (String × PyProj α) → Except String (List (String × List SupplyRow))
  | [] => .ok []
  | (_, PyProj.pts _) :: _ => .error "AttributeError"
  | (p, PyProj.scen m) :: rest =>
    (formatSupplyShaped rest).map fun rs =>
      (p, m.flatMap fun s => s.2.map fun pt =>
        SupplyRow.mk p pt.year (calendar_to_financial_year pt.year)
          (rhe pt.total) (rhe pt.change) s.1) :: rs

/-- `format_projections(projections, ops_projections)`: the branch is chosen
solely by whether the first top-level key is one of the three scenario names;
`list(projections.keys())[0]` on an empty dict raises `IndexError`; the gap
analysis runs only when the input was classified as supply and
`ops_projections` was passed (modelled here in its already-formatted form). -/
def format_projections {α : Type} [LinearOrderedField α] [FloorRing α]
    (projections : List (String × PyProj α))
    (ops_projections : Option (List OpsRow)) : Except String FormatResult :=
  match projections with
  | [] => .error "IndexError"
  | (k, _) :: _ =>
    if k ∈ ["baseline", "optimistic", "pessimistic"] then
      (formatOpsShaped projections).map FormatResult.ops
    else
      match ops_projections with
      | none => (formatSupplyShaped projections).map FormatResult.supply
      | some opsRows =>
        (formatSupplyShaped projections).map fun fs =>
          FormatResult.gap (gapAnalysis fs opsRows)

end Pharmacy

namespace Pharmacy

/-- C1: the projection sequence of one scenario has `d + 1` points; point 0 is
the anchor `{year: start_year, total: base, change: 0}`; point `k` carries year
`start_year + k` and the loop's running total/change, which satisfy
`change_k = round(total_(k-1) * r / 100, 5)` and
`total_k = round(total_(k-1) + change_k, 5)`; within `_project_scenarios` the
rate used for a scenario is the base rate times the scenario multiplier; and
the anchor example base 1000, rate 5, duration 3 yields totals
1000, 1050, 1102.5, 1157.625. -/
theorem projection_sequence_spec (sy : ℤ) (name : String) (b r : ℚ) (d k : ℕ)
    (hk : k ≤ d) :
    (projectScenario sy name b r d).length = d + 1 ∧
    (projectScenario sy name b r d)[0]? = some ⟨sy, b, 0, name⟩ ∧
    (projectScenario sy name b r d)[k]? =
      some ⟨sy + k, totalAt b r k, changeAt b r k, name⟩ ∧
    (∀ j : ℕ, j + 1 ≤ d →
      changeAt b r (j + 1) = roundDec 5 (totalAt b r j * (r / 100)) ∧
      totalAt b r (j + 1) = roundDec 5 (totalAt b r j + changeAt b r (j + 1))) ∧
    (∀ s : String, ∀ m : ℚ, (s, m) ∈ [(name, r)] →
      ((s, projectScenario START_PROJECTION_YEAR s b (r * m) d) ∈
        projectScenarios b r [(name, r)] d)) ∧
    (totalAt (1000 : ℚ) 5 0 = 1000 ∧ totalAt (1000 : ℚ) 5 1 = 1050 ∧
     totalAt (1000 : ℚ) 5 2 = 1102.5 ∧ totalAt (1000 : ℚ) 5 3 = 1157.625) := by
  refine ⟨?_, ?_, ?_, ?_, ?_, ?_⟩
  · simp [projectScenario]
  · simp only [projectScenario, List.getElem?_map, List.getElem?_range,
      Nat.zero_lt_succ, Option.map_some]
    simp [totalAt, changeAt]
  · simp [projectScenario, List.getElem?_map, List.getElem?_range, Nat.lt_succ_iff.mpr hk]
  · intro j _
    exact ⟨rfl, rfl⟩
  · intro s m hs
    simp only [List.mem_singleton, Prod.mk.injEq] at hs
    simp [projectScenarios, hs.1, hs.2]
  · exact ⟨rfl, by norm_num [totalAt, roundDec, rhe],
      by norm_num [totalAt, roundDec, rhe], by norm_num [totalAt, roundDec, rhe]⟩

/-- Witness for C1 at start year 2025, scenario "baseline", base 1000,
rate 5, duration 3, point 3. -/
theorem projection_sequence_spec_witness :
    (3 : ℕ) ≤ 3 ∧
    (projectScenario (2025 : ℤ) "baseline" (1000 : ℚ) 5 3)[3]? =
      some ⟨2025 + (3 : ℕ), totalAt 1000 5 3, changeAt 1000 5 3, "baseline"⟩ :=
  ⟨by decide, (projection_sequence_spec 2025 "baseline" 1000 5 3 3 (by decide)).2.2.1⟩

end Pharmacy

namespace Pharmacy

/-- C3: `create_scenarios` returns the fixed mapping
baseline ↦ 1.0, optimistic ↦ 1.2, pessimistic ↦ 0.8 for every input,
including the empty map, and its output never depends on the input rates. -/
theorem create_scenarios_constant {β γ : Type} (rates : List (String × β))
    (rates2 : List (String × γ)) :
    create_scenarios (α := ℚ) rates =
      [("baseline", 1), ("optimistic", 1.2), ("pessimistic", 0.8)] ∧
    create_scenarios (α := ℚ) rates = create_scenarios (α := ℚ) rates2 := by
  constructor
  · unfold create_scenarios
    split <;> norm_num
  · unfold create_scenarios
    split <;> split <;> rfl

end Pharmacy

namespace Pharmacy

theorem mem_uniqueList {α : Type} [DecidableEq α] (a : α) (l : List α) :
    a ∈ uniqueList l ↔ a ∈ l := by
  induction l using uniqueList.induct with
  | case1 => simp [uniqueList]
  | case2 x xs ih =>
    rw [uniqueList]
    by_cases hax : a = x
    · subst hax; simp
    · simp only [List.mem_cons, hax, false_or]
      rw [ih]
      simp [List.mem_filter, hax]

theorem calcRatesGo_ok_iff (df : List SnapshotRow) :
    ∀ (ps : List String) (data : List (String × RateData)),
      calcRatesGo df ps = .ok data →
      (∀ q rd, (q, rd) ∈ data → q ∈ ps ∧ processProfession df q = .ok rd) ∧
      (∀ q, q ∈ ps → ∀ rd, processProfession df q = .ok rd → (q, rd) ∈ data) := by
  intro ps
  induction ps with
  | nil =>
    intro data h
    rw [calcRatesGo] at h
    cases h
    simp
  | cons p ps ih =>
    intro data h
    rw [calcRatesGo] at h
    cases hproc : processProfession df p with
    | skip =>
      rw [hproc] at h
      obtain ⟨h1, h2⟩ := ih data h
      refine ⟨fun q rd hq => ⟨List.mem_cons_of_mem _ (h1 q rd hq).1, (h1 q rd hq).2⟩, ?_⟩
      intro q hq rd hrd
      rcases List.mem_cons.mp hq with rfl | hq'
      · rw [hproc] at hrd; cases hrd
      · exact h2 q hq' rd hrd
    | zeroDiv =>
      rw [hproc] at h
      cases h
    | ok rd₀ =>
      rw [hproc] at h
      cases hrec : calcRatesGo df ps with
      | error e => rw [hrec] at h; cases h
      | ok rest =>
        rw [hrec] at h
        simp only [Except.map, Except.ok.injEq] at h
        subst h
        obtain ⟨h1, h2⟩ := ih rest hrec
        constructor
        · intro q rd hq
          rcases List.mem_cons.mp hq with heq | hq'
          · obtain ⟨rfl, rfl⟩ := Prod.mk.injEq .. ▸ heq
            exact ⟨List.mem_cons_self .., hproc⟩
          · exact ⟨List.mem_cons_of_mem _ (h1 q rd hq').1, (h1 q rd hq').2⟩
        · intro q hq rd hrd
          rcases List.mem_cons.mp hq with rfl | hq'
          · rw [hproc] at hrd
            cases hrd
            exact List.mem_cons_self ..
          · exact List.mem_cons_of_mem _ (h2 q hq' rd hrd)

theorem calcRatesGo_error_of_zeroDiv (df : List SnapshotRow) :
    ∀ ps : List String, (∃ p ∈ ps, processProfession df p = .zeroDiv) →
      calcRatesGo df ps = .error "ZeroDivisionError" := by
  intro ps
  induction ps with
  | nil => rintro ⟨p, hp, _⟩; cases hp
  | cons q ps ih =>
    rintro ⟨p, hp, hz⟩
    rw [calcRatesGo]
    rcases List.mem_cons.mp hp with rfl | hp'
    · rw [hz]
    · cases hproc : processProfession df q with
      | skip => exact ih ⟨p, hp', hz⟩
      | zeroDiv => rfl
      | ok rd => rw [ih ⟨p, hp', hz⟩]; rfl

theorem calcRatesGo_ok_of_no_zeroDiv (df : List SnapshotRow) :
    ∀ ps : List String, (∀ p ∈ ps, processProfession df p ≠ .zeroDiv) →
      ∃ data, calcRatesGo df ps = .ok data := by
  intro ps
  induction ps with
  | nil => exact fun _ => ⟨[], rfl⟩
  | cons q ps ih =>
    intro h
    obtain ⟨data, hdata⟩ := ih fun p hp => h p (List.mem_cons_of_mem _ hp)
    rw [calcRatesGo]
    cases hproc : processProfession df q with
    | skip => exact ⟨data, hdata⟩
    | zeroDiv => exact absurd hproc (h q (List.mem_cons_self ..))
    | ok rd => exact ⟨(q, rd) :: data, by rw [hdata]; rfl⟩

end Pharmacy

namespace Pharmacy

theorem find?_year_isSome (df : List SnapshotRow) (p : String) (y : ℤ)
    (hy : y ∈ availableYears df p) :
    ∃ r, (professionRows df p).find? (fun r => r.year = y) = some r := by
  rw [availableYears, mem_uniqueList, List.mem_map] at hy
  obtain ⟨r, hr, hry⟩ := hy
  have : ((professionRows df p).find? (fun r => r.year = y)).isSome := by
    rw [List.find?_isSome]
    exact ⟨r, hr, by simp [hry]⟩
  exact Option.isSome_iff_exists.mp this

theorem effBaselineYear_mem (df : List SnapshotRow) (p : String)
    (h : availableYears df p ≠ []) : effBaselineYear df p ∈ availableYears df p := by
  rw [effBaselineYear]
  split
  · assumption
  · cases hmax : (availableYears df p).max? with
    | none => exact absurd (List.max?_eq_none_iff.mp hmax) h
    | some m =>
      simpa using List.max?_mem (fun a b => max_choice a b) hmax

theorem earliestYear_mem (df : List SnapshotRow) (p : String)
    (h : availableYears df p ≠ []) : earliestYear df p ∈ availableYears df p := by
  rw [earliestYear]
  cases hmin : (availableYears df p).min? with
  | none => exact absurd (List.min?_eq_none_iff.mp hmin) h
  | some m =>
    simpa using List.min?_mem (fun a b => min_choice a b) hmin

theorem baselineTotalOf_isSome (df : List SnapshotRow) (p : String)
    (h : availableYears df p ≠ []) : ∃ b, baselineTotalOf df p = some b := by
  obtain ⟨r, hr⟩ := find?_year_isSome df p _ (effBaselineYear_mem df p h)
  exact ⟨r.registrants, by rw [baselineTotalOf, hr]; rfl⟩

theorem earliestTotalOf_isSome (df : List SnapshotRow) (p : String)
    (h : availableYears df p ≠ []) : ∃ e, earliestTotalOf df p = some e := by
  obtain ⟨r, hr⟩ := find?_year_isSome df p _ (earliestYear_mem df p h)
  exact ⟨r.registrants, by rw [earliestTotalOf, hr]; rfl⟩

/-- C7: a profession with fewer than 2 distinct census years, or whose
earliest year equals the (fallback-adjusted) baseline year, is skipped: when
the run returns a growth-rate map, that profession has no entry, while every
profession whose loop body succeeds still has its entry — the run continues
past the bad profession. -/
theorem insufficient_data_skips_profession (df : List SnapshotRow) (p : String)
    (hp : p ∈ uniqueProfessions df)
    (hbad : (availableYears df p).length < 2 ∨ earliestYear df p = effBaselineYear df p) :
    processProfession df p = .skip ∧
    ∀ data, calculate_annual_growth_rates df = .ok data →
      (∀ rd, (p, rd) ∉ data) ∧
      ∀ q, q ∈ uniqueProfessions df → ∀ rd, processProfession df q = .ok rd →
        (q, rd) ∈ data := by
  have hskip : processProfession df p = .skip := by
    rw [processProfession]
    rcases hbad with hlt | heq
    · rw [if_pos hlt]
    · by_cases hlt : (availableYears df p).length < 2
      · rw [if_pos hlt]
      · rw [if_neg hlt]
        cases hb : baselineTotalOf df p with
        | none => rfl
        | some b => simp only [if_pos heq]
  refine ⟨hskip, fun data hdata => ?_⟩
  obtain ⟨h1, h2⟩ := calcRatesGo_ok_iff df (uniqueProfessions df) data hdata
  refine ⟨fun rd hmem => ?_, fun q hq rd hrd => h2 q hq rd hrd⟩
  have := (h1 p rd hmem).2
  rw [hskip] at this
  cases this

/-- Witness for C7: a profession with a single distinct census year
("Technician", 2025 only) next to a well-populated one. -/
theorem insufficient_data_skips_profession_witness :
    "Technician" ∈ uniqueProfessions
      [⟨"Pharmacist", 2018, 100⟩, ⟨"Pharmacist", 2025, 200⟩, ⟨"Technician", 2025, 50⟩] ∧
    ((availableYears
      [⟨"Pharmacist", 2018, 100⟩, ⟨"Pharmacist", 2025, 200⟩, ⟨"Technician", 2025, 50⟩]
      "Technician").length < 2 ∨
      earliestYear
        [⟨"Pharmacist", 2018, 100⟩, ⟨"Pharmacist", 2025, 200⟩, ⟨"Technician", 2025, 50⟩]
        "Technician" =
      effBaselineYear
        [⟨"Pharmacist", 2018, 100⟩, ⟨"Pharmacist", 2025, 200⟩, ⟨"Technician", 2025, 50⟩]
        "Technician") ∧
    processProfession
      [⟨"Pharmacist", 2018, 100⟩, ⟨"Pharmacist", 2025, 200⟩, ⟨"Technician", 2025, 50⟩]
      "Technician" = .skip :=
  have h1 : "Technician" ∈ uniqueProfessions
      [⟨"Pharmacist", 2018, 100⟩, ⟨"Pharmacist", 2025, 200⟩, ⟨"Technician", 2025, 50⟩] := by
    simp [uniqueProfessions, uniqueList]
  have h2 : (availableYears
      [⟨"Pharmacist", 2018, 100⟩, ⟨"Pharmacist", 2025, 200⟩, ⟨"Technician", 2025, 50⟩]
      "Technician").length < 2 := by
    simp [availableYears, uniqueList, professionRows]
  ⟨h1, Or.inl h2,
    (insufficient_data_skips_profession _ _ h1 (Or.inl h2)).1⟩

end Pharmacy

namespace Pharmacy

/-- C8: with at least two distinct years and a later baseline year, a zero
earliest-year total makes the profession loop hit `ZeroDivisionError`, aborting
`calculate_annual_growth_rates` with an error instead of returning a numeric
rate; a positive earliest total divides safely and stores a rate built from
the finite growth factor. -/
theorem zero_earliest_total_raises (df : List SnapshotRow) (p : String)
    (hp : p ∈ uniqueProfessions df)
    (h2 : 2 ≤ (availableYears df p).length)
    (hne : earliestYear df p ≠ effBaselineYear df p) :
    (earliestTotalOf df p = some 0 →
      processProfession df p = .zeroDiv ∧
      calculate_annual_growth_rates df = .error "ZeroDivisionError") ∧
    (∀ t : ℤ, earliestTotalOf df p = some t → 0 < t →
      ∃ rd, processProfession df p = .ok rd ∧
        rd.annual_growth_rate_pct =
          roundDec 2 (annualGrowthRatePct ((baselineTotalOf df p).getD 0) t
            (effBaselineYear df p - earliestYear df p))) := by
  have hnil : availableYears df p ≠ [] := by
    intro h
    rw [h] at h2
    exact absurd h2 (by norm_num)
  obtain ⟨b, hb⟩ := baselineTotalOf_isSome df p hnil
  have hlt : ¬ (availableYears df p).length < 2 := not_lt.mpr h2
  constructor
  · intro he0
    have hz : processProfession df p = .zeroDiv := by
      rw [processProfession, if_neg hlt, hb]
      simp only [if_neg hne, he0]
      simp
    exact ⟨hz, calcRatesGo_error_of_zeroDiv df _ ⟨p, hp, hz⟩⟩
  · intro t ht htpos
    refine ⟨⟨roundDec 2 (annualGrowthRatePct b t (effBaselineYear df p - earliestYear df p)),
        roundDec 1 (((b - t : ℤ) : ℝ) / ((effBaselineYear df p - earliestYear df p : ℤ) : ℝ)),
        b - t, effBaselineYear df p - earliestYear df p⟩, ?_, ?_⟩
    · rw [processProfession, if_neg hlt, hb]
      simp only [if_neg hne, ht]
      rw [if_neg (by omega : ¬ t = 0)]
    · rw [hb]
      rfl

/-- Witness for C8: profession "X" with earliest total 0 in 2018 and
baseline total 50 in 2025. -/
theorem zero_earliest_total_raises_witness :
    "X" ∈ uniqueProfessions [⟨"X", 2018, 0⟩, ⟨"X", 2025, 50⟩] ∧
    2 ≤ (availableYears [⟨"X", 2018, 0⟩, ⟨"X", 2025, 50⟩] "X").length ∧
    earliestYear [⟨"X", 2018, 0⟩, ⟨"X", 2025, 50⟩] "X" ≠
      effBaselineYear [⟨"X", 2018, 0⟩, ⟨"X", 2025, 50⟩] "X" ∧
    (earliestTotalOf [⟨"X", 2018, 0⟩, ⟨"X", 2025, 50⟩] "X" = some 0 →
      processProfession [⟨"X", 2018, 0⟩, ⟨"X", 2025, 50⟩] "X" = .zeroDiv ∧
      calculate_annual_growth_rates [⟨"X", 2018, 0⟩, ⟨"X", 2025, 50⟩] =
        .error "ZeroDivisionError") :=
  have h1 : "X" ∈ uniqueProfessions [⟨"X", 2018, 0⟩, ⟨"X", 2025, 50⟩] := by
    simp [uniqueProfessions, uniqueList]
  have h2 : 2 ≤ (availableYears [⟨"X", 2018, 0⟩, ⟨"X", 2025, 50⟩] "X").length := by
    simp [availableYears, uniqueList, professionRows]
  have h3 : earliestYear [⟨"X", 2018, 0⟩, ⟨"X", 2025, 50⟩] "X" ≠
      effBaselineYear [⟨"X", 2018, 0⟩, ⟨"X", 2025, 50⟩] "X" := by
    simp [earliestYear, effBaselineYear, availableYears, uniqueList, professionRows,
      BASELINE_YEAR, List.min?, List.max?]
  ⟨h1, h2, h3, (zero_earliest_total_raises _ _ h1 h2 h3).1⟩

end Pharmacy

namespace Pharmacy

theorem two_rpow_seventh_bounds :
    (1.10408 : ℝ) < (2 : ℝ) ^ ((1 : ℝ)/7) ∧ (2 : ℝ) ^ ((1 : ℝ)/7) < 1.10410 := by
  constructor
  · have h7 : ((1.10408 : ℝ) ^ (7 : ℕ)) < 2 := by norm_num
    have h := Real.rpow_lt_rpow (by positivity) h7 (show (0:ℝ) < 1/7 by norm_num)
    rw [← Real.rpow_natCast (1.10408 : ℝ) 7,
      ← Real.rpow_mul (by norm_num : (0:ℝ) ≤ 1.10408)] at h
    norm_num [Real.rpow_one] at h
    convert h using 2
    norm_num
  · have h7 : (2 : ℝ) < ((1.10410 : ℝ) ^ (7 : ℕ)) := by norm_num
    have h := Real.rpow_lt_rpow (by norm_num) h7 (show (0:ℝ) < 1/7 by norm_num)
    rw [← Real.rpow_natCast (1.10410 : ℝ) 7,
      ← Real.rpow_mul (by norm_num : (0:ℝ) ≤ 1.10410)] at h
    norm_num [Real.rpow_one] at h
    convert h using 2
    norm_num

/-- C2: for a profession with two distinct years, a later baseline year and a
positive earliest total, the stored rate is the 2-decimal rounding of
`((baseline_total/earliest_total)^(1/years_elapsed) - 1) * 100` with
`years_elapsed = baseline_year - earliest_year`; the CAGR is negative whenever
`baseline_total < earliest_total`; and for earliest 100, baseline 200 over 7
years it is 10.41 to two decimals, within 0.01 of 10.41. -/
theorem cagr_spec (df : List SnapshotRow) (p : String)
    (h2 : 2 ≤ (availableYears df p).length)
    (hne : earliestYear df p ≠ effBaselineYear df p) :
    (∀ b e : ℤ, baselineTotalOf df p = some b → earliestTotalOf df p = some e → 0 < e →
      ∃ rd, processProfession df p = .ok rd ∧
        rd.annual_growth_rate_pct =
          roundDec 2 (annualGrowthRatePct b e (effBaselineYear df p - earliestYear df p)) ∧
        rd.years_elapsed = effBaselineYear df p - earliestYear df p) ∧
    (∀ b e y : ℤ, 0 ≤ b → b < e → 0 < y → annualGrowthRatePct b e y < 0) ∧
    roundDec 2 (annualGrowthRatePct 200 100 7) = 10.41 ∧
    |annualGrowthRatePct 200 100 7 - 10.41| < 1/100 := by
  have hlt : ¬ (availableYears df p).length < 2 := not_lt.mpr h2
  have hval : annualGrowthRatePct 200 100 7 = ((2:ℝ) ^ ((1:ℝ)/7) - 1) * 100 := by
    rw [annualGrowthRatePct]
    norm_num
  obtain ⟨htl, htu⟩ := two_rpow_seventh_bounds
  refine ⟨?_, ?_, ?_, ?_⟩
  · intro b e hb he hepos
    refine ⟨⟨roundDec 2 (annualGrowthRatePct b e (effBaselineYear df p - earliestYear df p)),
        roundDec 1 (((b - e : ℤ) : ℝ) / ((effBaselineYear df p - earliestYear df p : ℤ) : ℝ)),
        b - e, effBaselineYear df p - earliestYear df p⟩, ?_, rfl, rfl⟩
    rw [processProfession, if_neg hlt, hb]
    simp only [if_neg hne, he]
    rw [if_neg (by omega : ¬ e = 0)]
  · intro b e y hb hbe hy
    rw [annualGrowthRatePct]
    have hepos : (0:ℝ) < (e:ℤ) := by exact_mod_cast (by omega : (0:ℤ) < e)
    have hr0 : (0:ℝ) ≤ (b:ℝ)/(e:ℝ) := div_nonneg (by exact_mod_cast hb) hepos.le
    have hr1 : (b:ℝ)/(e:ℝ) < 1 := (div_lt_one hepos).mpr (by exact_mod_cast hbe)
    have hypos : (0:ℝ) < (y:ℝ) := by exact_mod_cast hy
    have hz : (0:ℝ) < 1/(y:ℝ) := by positivity
    have hlt1 := Real.rpow_lt_one hr0 hr1 hz
    exact mul_neg_of_neg_of_pos (sub_neg.mpr hlt1) (by norm_num)
  · rw [roundDec, hval]
    have hfloor : ⌊(((2:ℝ) ^ ((1:ℝ)/7) - 1) * 100) * (10:ℝ)^2⌋ = 1040 := by
      rw [Int.floor_eq_iff]
      constructor
      · push_cast
        nlinarith
      · push_cast
        nlinarith
    rw [rhe, hfloor]
    rw [if_neg (by push_cast; nlinarith), if_pos (by push_cast; nlinarith)]
    norm_num
  · rw [hval, abs_lt]
    constructor <;> nlinarith

/-- Witness for C2 at the two-row series Pharmacist 2018 ↦ 100, 2025 ↦ 200. -/
theorem cagr_spec_witness :
    2 ≤ (availableYears [⟨"Pharmacist", 2018, 100⟩, ⟨"Pharmacist", 2025, 200⟩]
      "Pharmacist").length ∧
    earliestYear [⟨"Pharmacist", 2018, 100⟩, ⟨"Pharmacist", 2025, 200⟩] "Pharmacist" ≠
      effBaselineYear [⟨"Pharmacist", 2018, 100⟩, ⟨"Pharmacist", 2025, 200⟩] "Pharmacist" ∧
    roundDec 2 (annualGrowthRatePct 200 100 7) = 10.41 :=
  have h2 : 2 ≤ (availableYears [⟨"Pharmacist", 2018, 100⟩, ⟨"Pharmacist", 2025, 200⟩]
      "Pharmacist").length := by
    simp [availableYears, uniqueList, professionRows]
  have h3 : earliestYear [⟨"Pharmacist", 2018, 100⟩, ⟨"Pharmacist", 2025, 200⟩]
      "Pharmacist" ≠
      effBaselineYear [⟨"Pharmacist", 2018, 100⟩, ⟨"Pharmacist", 2025, 200⟩] "Pharmacist" := by
    simp [earliestYear, effBaselineYear, availableYears, uniqueList, professionRows,
      BASELINE_YEAR, List.min?, List.max?]
  ⟨h2, h3, (cagr_spec _ _ h2 h3).2.2.1⟩

end Pharmacy

namespace Pharmacy

/-- C6 (amended): the 2-decimal rounding is not cosmetic — the stored
`annual_growth_rate_pct` is the rounded CAGR and `project_workforce_supply`
feeds exactly that stored rounded field into `_project_scenarios`, so the rate
driving the compounding always coincides with the displayed 2-decimal rate. -/
theorem stored_rate_is_rounded_and_fed (df : List SnapshotRow) (p : String)
    (baseline : List (String × ℝ)) (d : ℕ) (b e : ℤ)
    (data : List (String × RateData)) (rd : RateData) (v : ℝ)
    (h2 : 2 ≤ (availableYears df p).length)
    (hne : earliestYear df p ≠ effBaselineYear df p)
    (hb : baselineTotalOf df p = some b)
    (he : earliestTotalOf df p = some e)
    (he0 : e ≠ 0)
    (hdata : calculate_annual_growth_rates df = .ok data)
    (hmem : (p, rd) ∈ data)
    (hv : baseline.lookup p = some v) :
    rd.annual_growth_rate_pct =
      roundDec 2 (annualGrowthRatePct b e (effBaselineYear df p - earliestYear df p)) ∧
    (p, projectScenarios v rd.annual_growth_rate_pct (create_scenarios data) d) ∈
      project_workforce_supply baseline data d := by
  have hproc : processProfession df p = .ok rd :=
    ((calcRatesGo_ok_iff df (uniqueProfessions df) data hdata).1 p rd hmem).2
  have hlt : ¬ (availableYears df p).length < 2 := not_lt.mpr h2
  rw [processProfession, if_neg hlt, hb] at hproc
  simp only [if_neg hne, he] at hproc
  rw [if_neg he0] at hproc
  cases hproc
  refine ⟨rfl, ?_⟩
  rw [project_workforce_supply, List.mem_filterMap]
  refine ⟨(p, _), hmem, ?_⟩
  rw [hv]

theorem processProfession_sample :
    processProfession [⟨"Pharmacist", 2024, 300⟩, ⟨"Pharmacist", 2025, 301⟩]
      "Pharmacist" = .ok ⟨33/100, 1, 1, 1⟩ := by
  have hyears : availableYears [⟨"Pharmacist", 2024, 300⟩, ⟨"Pharmacist", 2025, 301⟩]
      "Pharmacist" = [2024, 2025] := by
    simp [availableYears, professionRows, uniqueList]
  have heff : effBaselineYear [⟨"Pharmacist", 2024, 300⟩, ⟨"Pharmacist", 2025, 301⟩]
      "Pharmacist" = 2025 := by
    simp [effBaselineYear, hyears, BASELINE_YEAR]
  have hearly : earliestYear [⟨"Pharmacist", 2024, 300⟩, ⟨"Pharmacist", 2025, 301⟩]
      "Pharmacist" = 2024 := by
    simp [earliestYear, hyears, List.min?]
  have hb : baselineTotalOf [⟨"Pharmacist", 2024, 300⟩, ⟨"Pharmacist", 2025, 301⟩]
      "Pharmacist" = some 301 := by
    simp [baselineTotalOf, heff, professionRows, List.find?]
  have he : earliestTotalOf [⟨"Pharmacist", 2024, 300⟩, ⟨"Pharmacist", 2025, 301⟩]
      "Pharmacist" = some 300 := by
    simp [earliestTotalOf, hearly, professionRows, List.find?]
  have hagr : annualGrowthRatePct 301 300 1 = 1/3 := by
    rw [annualGrowthRatePct]
    norm_num [Real.rpow_one]
  have hround : roundDec 2 ((1:ℝ)/3) = 33/100 := by
    have hfloor : ⌊(1:ℝ)/3 * (10:ℝ)^2⌋ = 33 := by
      rw [Int.floor_eq_iff]
      norm_num
    rw [roundDec, rhe, hfloor]
    rw [if_pos (by push_cast; norm_num)]
    norm_num
  rw [processProfession, if_neg (by rw [hyears]; norm_num), hb]
  simp only [if_neg (by rw [hearly, heff]; norm_num : ¬ earliestYear
    [⟨"Pharmacist", 2024, 300⟩, ⟨"Pharmacist", 2025, 301⟩] "Pharmacist" =
    effBaselineYear [⟨"Pharmacist", 2024, 300⟩, ⟨"Pharmacist", 2025, 301⟩] "Pharmacist"), he]
  rw [if_neg (by norm_num : ¬ (300:ℤ) = 0)]
  rw [heff, hearly]
  have h1 : (2025 - 2024 : ℤ) = 1 := by norm_num
  rw [h1, hagr, hround]
  have hchange : roundDec 1 (((301 - 300 : ℤ) : ℝ) / ((1:ℤ) : ℝ)) = 1 := by
    rw [roundDec, rhe]
    push_cast
    norm_num
  rw [hchange]
  norm_num

theorem sample_growth_rates :
    calculate_annual_growth_rates [⟨"Pharmacist", 2024, 300⟩, ⟨"Pharmacist", 2025, 301⟩] =
      .ok [("Pharmacist", ⟨33/100, 1, 1, 1⟩)] := by
  have hu : uniqueProfessions [⟨"Pharmacist", 2024, 300⟩, ⟨"Pharmacist", 2025, 301⟩] =
      ["Pharmacist"] := by
    simp [uniqueProfessions, uniqueList]
  rw [calculate_annual_growth_rates, hu, calcRatesGo, processProfession_sample, calcRatesGo]
  rfl

/-- Witness for C6 (amended) at the 2024/2025 Pharmacist series, a singleton
baseline map and duration 2. -/
theorem stored_rate_is_rounded_and_fed_witness :
    2 ≤ (availableYears [⟨"Pharmacist", 2024, 300⟩, ⟨"Pharmacist", 2025, 301⟩]
      "Pharmacist").length ∧
    ((⟨33/100, 1, 1, 1⟩ : RateData).annual_growth_rate_pct =
      roundDec 2 (annualGrowthRatePct 301 300
        (effBaselineYear [⟨"Pharmacist", 2024, 300⟩, ⟨"Pharmacist", 2025, 301⟩] "Pharmacist" -
         earliestYear [⟨"Pharmacist", 2024, 300⟩, ⟨"Pharmacist", 2025, 301⟩] "Pharmacist")) ∧
      ("Pharmacist", projectScenarios (1000 : ℝ)
          (⟨33/100, 1, 1, 1⟩ : RateData).annual_growth_rate_pct
          (create_scenarios [("Pharmacist", (⟨33/100, 1, 1, 1⟩ : RateData))]) 2) ∈
        project_workforce_supply [("Pharmacist", (1000 : ℝ))]
          [("Pharmacist", ⟨33/100, 1, 1, 1⟩)] 2) :=
  have h2 : 2 ≤ (availableYears [⟨"Pharmacist", 2024, 300⟩, ⟨"Pharmacist", 2025, 301⟩]
      "Pharmacist").length := by
    simp [availableYears, uniqueList, professionRows]
  have hne : earliestYear [⟨"Pharmacist", 2024, 300⟩, ⟨"Pharmacist", 2025, 301⟩]
      "Pharmacist" ≠
      effBaselineYear [⟨"Pharmacist", 2024, 300⟩, ⟨"Pharmacist", 2025, 301⟩] "Pharmacist" := by
    simp [earliestYear, effBaselineYear, availableYears, uniqueList, professionRows,
      BASELINE_YEAR, List.min?, List.max?]
  have hb : baselineTotalOf [⟨"Pharmacist", 2024, 300⟩, ⟨"Pharmacist", 2025, 301⟩]
      "Pharmacist" = some 301 := by
    simp [baselineTotalOf, effBaselineYear, availableYears, uniqueList, professionRows,
      BASELINE_YEAR, List.find?]
  have he : earliestTotalOf [⟨"Pharmacist", 2024, 300⟩, ⟨"Pharmacist", 2025, 301⟩]
      "Pharmacist" = some 300 := by
    simp [earliestTotalOf, earliestYear, availableYears, uniqueList, professionRows,
      List.min?, List.find?]
  ⟨h2, stored_rate_is_rounded_and_fed
    [⟨"Pharmacist", 2024, 300⟩, ⟨"Pharmacist", 2025, 301⟩] "Pharmacist"
    [("Pharmacist", (1000 : ℝ))] 2 301 300
    [("Pharmacist", ⟨33/100, 1, 1, 1⟩)] ⟨33/100, 1, 1, 1⟩ 1000
    h2 hne hb he (by norm_num) sample_growth_rates (by simp) (by simp [List.lookup])⟩

/-- Counterexample to C6 as stated: for the series Pharmacist 2024 ↦ 300,
2025 ↦ 301 the unrounded CAGR is 1/3 % but the loop stores (and the supply
projection is fed) the 2-decimal-rounded 0.33 %, which differs from it. -/
theorem projection_rate_counterexample :
    processProfession [⟨"Pharmacist", 2024, 300⟩, ⟨"Pharmacist", 2025, 301⟩]
      "Pharmacist" = .ok ⟨33/100, 1, 1, 1⟩ ∧
    annualGrowthRatePct 301 300 1 = 1/3 ∧
    (33/100 : ℝ) ≠ 1/3 := by
  refine ⟨processProfession_sample, ?_, by norm_num⟩
  rw [annualGrowthRatePct]
  norm_num [Real.rpow_one]

end Pharmacy

namespace Pharmacy

theorem create_scenarios_eq {β α : Type} [DivisionRing α] (x : List (String × β)) :
    create_scenarios (α := α) x =
      [("baseline", 1), ("optimistic", 12/10), ("pessimistic", 8/10)] := by
  rw [create_scenarios]
  split <;> rfl

theorem mem_gapAnalysis (fs : List (String × List SupplyRow)) (ops : List OpsRow)
    (row : GapRow) :
    row ∈ gapAnalysis fs ops ↔
      row ∈ mergeGap (supplyTotals (fs.flatMap (·.2)))
        (ops.map fun r => KeyedVal.mk r.year r.financial_year r.scenario r.total_ops_fte) := by
  rw [gapAnalysis]
  exact (List.perm_insertionSort _ _).mem_iff

theorem mem_mergeGap (S O : List KeyedVal) (row : GapRow) :
    row ∈ mergeGap S O ↔
      ∃ s ∈ S, ∃ o ∈ O, o.year = s.year ∧ o.financial_year = s.financial_year ∧
        o.scenario = s.scenario ∧
        row = ⟨s.year, s.financial_year, s.scenario, s.value, o.value,
               s.value - o.value⟩ := by
  simp only [mergeGap, List.mem_flatMap, List.mem_map, List.mem_filter,
    decide_eq_true_eq]
  constructor
  · rintro ⟨s, hs, o, ⟨ho, h1, h2, h3⟩, rfl⟩
    exact ⟨s, hs, o, ho, h1, h2, h3, rfl⟩
  · rintro ⟨s, hs, o, ho, h1, h2, h3, rfl⟩
    exact ⟨s, hs, o, ⟨ho, h1, h2, h3⟩, rfl⟩

theorem mem_supplyTotals (rows : List SupplyRow) (kv : KeyedVal) :
    kv ∈ supplyTotals rows ↔
      ∃ r ∈ rows, supplyKeyOf r = (kv.year, kv.financial_year, kv.scenario) ∧
        kv.value = ((rows.filter
          (fun r' => supplyKeyOf r' = (kv.year, kv.financial_year, kv.scenario))).map
            (·.total_registrants)).sum := by
  simp only [supplyTotals, List.mem_map, mem_uniqueList]
  constructor
  · rintro ⟨k, hk, rfl⟩
    obtain ⟨r, hr, hrk⟩ := hk
    exact ⟨r, hr, by simp [hrk], by simp⟩
  · rintro ⟨r, hr, hrk, hval⟩
    refine ⟨(kv.year, kv.financial_year, kv.scenario), ⟨r, hr, hrk⟩, ?_⟩
    cases kv
    simp at hval ⊢
    exact hval.symm

end Pharmacy

namespace Pharmacy

theorem gap_keys_iff (fs : List (String × List SupplyRow)) (ops : List OpsRow)
    (hs : ∀ r ∈ fs.flatMap (·.2), r.financial_year = calendar_to_financial_year r.year)
    (ho : ∀ o ∈ ops, o.financial_year = calendar_to_financial_year o.year)
    (y : ℤ) (sc : String) :
    (∃ row ∈ gapAnalysis fs ops, row.year = y ∧ row.scenario = sc) ↔
      ((∃ r ∈ fs.flatMap (·.2), r.year = y ∧ r.scenario = sc) ∧
       (∃ o ∈ ops, o.year = y ∧ o.scenario = sc)) := by
  constructor
  · rintro ⟨row, hrow, hy, hsc⟩
    rw [mem_gapAnalysis, mem_mergeGap] at hrow
    obtain ⟨s, hsmem, o, homem, ho1, ho2, ho3, rfl⟩ := hrow
    simp only at hy hsc
    rw [mem_supplyTotals] at hsmem
    obtain ⟨r, hr, hrk, _⟩ := hsmem
    obtain ⟨orow, horow, rfl⟩ := List.mem_map.mp homem
    refine ⟨⟨r, hr, ?_, ?_⟩, ⟨orow, horow, ?_, ?_⟩⟩
    · rw [show r.year = (supplyKeyOf r).1 from rfl, hrk]
      exact hy
    · rw [show r.scenario = (supplyKeyOf r).2.2 from rfl, hrk]
      exact hsc
    · simpa [hy] using ho1
    · simpa [hsc] using ho3
  · rintro ⟨⟨r, hr, hry, hrsc⟩, ⟨o, homem, hoy, hosc⟩⟩
    have hrk : supplyKeyOf r = (y, calendar_to_financial_year y, sc) := by
      rw [supplyKeyOf, hs r hr, hry, hrsc]
    refine ⟨⟨y, calendar_to_financial_year y, sc,
      (((fs.flatMap (·.2)).filter
        (fun r' => supplyKeyOf r' = (y, calendar_to_financial_year y, sc))).map
          (·.total_registrants)).sum,
      o.total_ops_fte,
      (((fs.flatMap (·.2)).filter
        (fun r' => supplyKeyOf r' = (y, calendar_to_financial_year y, sc))).map
          (·.total_registrants)).sum - o.total_ops_fte⟩, ?_, rfl, rfl⟩
    rw [mem_gapAnalysis, mem_mergeGap]
    refine ⟨⟨y, calendar_to_financial_year y, sc,
      (((fs.flatMap (·.2)).filter
        (fun r' => supplyKeyOf r' = (y, calendar_to_financial_year y, sc))).map
          (·.total_registrants)).sum⟩,
      (mem_supplyTotals _ _).mpr ⟨r, hr, hrk, rfl⟩,
      KeyedVal.mk o.year o.financial_year o.scenario o.total_ops_fte,
      List.mem_map.mpr ⟨o, homem, rfl⟩, ?_, ?_, ?_, rfl⟩
    · exact hoy
    · rw [ho o homem, hoy]
    · exact hosc

end Pharmacy

namespace Pharmacy

theorem mem_projectScenario {α : Type} [LinearOrderedField α] [FloorRing α]
    (sy : ℤ) (name : String) (b r : α) (d : ℕ) (pt : ProjPoint α) :
    pt ∈ projectScenario sy name b r d ↔
      ∃ k : ℕ, k ≤ d ∧ pt = ⟨sy + (k : ℤ), totalAt b r k, changeAt b r k, name⟩ := by
  simp [projectScenario, List.mem_map, List.mem_range, Nat.lt_succ_iff, eq_comm]

theorem formatOps_keys (b : ℚ) (d : ℕ) (y : ℤ) (sc : String) :
    (∃ o ∈ formatOpsRows (project_pharmacy_ops b d), o.year = y ∧ o.scenario = sc) ↔
      (START_PROJECTION_YEAR ≤ y ∧ y ≤ START_PROJECTION_YEAR + (d : ℤ) ∧
       sc ∈ (["baseline", "optimistic", "pessimistic"] : List String)) := by
  rw [project_pharmacy_ops, create_scenarios_eq, projectScenarios]
  constructor
  · rintro ⟨o, ho, hy, hsc⟩
    rw [formatOpsRows] at ho
    simp only [List.mem_flatMap] at ho
    obtain ⟨s, hsmem, hpt⟩ := ho
    obtain ⟨pt, hptmem, rfl⟩ := List.mem_map.mp hpt
    obtain ⟨sc0, hsc0, rfl⟩ := List.mem_map.mp hsmem
    rw [mem_projectScenario] at hptmem
    obtain ⟨k, hk, rfl⟩ := hptmem
    simp only at hy hsc
    refine ⟨by omega, by omega, ?_⟩
    rw [← hsc]
    have hcase : sc0 = ("baseline", (1:ℚ)) ∨ sc0 = ("optimistic", 12/10) ∨
        sc0 = ("pessimistic", 8/10) := by
      simpa using hsc0
    rcases hcase with rfl | rfl | rfl <;> simp
  · rintro ⟨h1, h2, h3⟩
    have hk : ∃ k : ℕ, k ≤ d ∧ y = START_PROJECTION_YEAR + (k : ℤ) :=
      ⟨(y - START_PROJECTION_YEAR).toNat, by omega, by omega⟩
    obtain ⟨k, hkd, rfl⟩ := hk
    simp only [List.mem_cons, List.not_mem_nil, or_false] at h3
    rcases h3 with rfl | rfl | rfl
    · refine ⟨⟨START_PROJECTION_YEAR + (k : ℤ),
        calendar_to_financial_year (START_PROJECTION_YEAR + (k : ℤ)),
        rhe (totalAt b (OPS_GROWTH_RATE_PCT * 1) k),
        rhe (changeAt b (OPS_GROWTH_RATE_PCT * 1) k), "baseline"⟩, ?_, rfl, rfl⟩
      rw [formatOpsRows]
      simp only [List.mem_flatMap]
      refine ⟨("baseline", projectScenario START_PROJECTION_YEAR "baseline" b
        (OPS_GROWTH_RATE_PCT * 1) d), by simp, ?_⟩
      exact List.mem_map.mpr ⟨⟨START_PROJECTION_YEAR + (k : ℤ),
        totalAt b (OPS_GROWTH_RATE_PCT * 1) k, changeAt b (OPS_GROWTH_RATE_PCT * 1) k,
        "baseline"⟩, (mem_projectScenario _ _ _ _ _ _).mpr ⟨k, hkd, rfl⟩, rfl⟩
    · refine ⟨⟨START_PROJECTION_YEAR + (k : ℤ),
        calendar_to_financial_year (START_PROJECTION_YEAR + (k : ℤ)),
        rhe (totalAt b (OPS_GROWTH_RATE_PCT * (12/10)) k),
        rhe (changeAt b (OPS_GROWTH_RATE_PCT * (12/10)) k), "optimistic"⟩, ?_, rfl, rfl⟩
      rw [formatOpsRows]
      simp only [List.mem_flatMap]
      refine ⟨("optimistic", projectScenario START_PROJECTION_YEAR "optimistic" b
        (OPS_GROWTH_RATE_PCT * (12/10)) d), by simp, ?_⟩
      exact List.mem_map.mpr ⟨⟨START_PROJECTION_YEAR + (k : ℤ),
        totalAt b (OPS_GROWTH_RATE_PCT * (12/10)) k,
        changeAt b (OPS_GROWTH_RATE_PCT * (12/10)) k,
        "optimistic"⟩, (mem_projectScenario _ _ _ _ _ _).mpr ⟨k, hkd, rfl⟩, rfl⟩
    · refine ⟨⟨START_PROJECTION_YEAR + (k : ℤ),
        calendar_to_financial_year (START_PROJECTION_YEAR + (k : ℤ)),
        rhe (totalAt b (OPS_GROWTH_RATE_PCT * (8/10)) k),
        rhe (changeAt b (OPS_GROWTH_RATE_PCT * (8/10)) k), "pessimistic"⟩, ?_, rfl, rfl⟩
      rw [formatOpsRows]
      simp only [List.mem_flatMap]
      refine ⟨("pessimistic", projectScenario START_PROJECTION_YEAR "pessimistic" b
        (OPS_GROWTH_RATE_PCT * (8/10)) d), by simp, ?_⟩
      exact List.mem_map.mpr ⟨⟨START_PROJECTION_YEAR + (k : ℤ),
        totalAt b (OPS_GROWTH_RATE_PCT * (8/10)) k,
        changeAt b (OPS_GROWTH_RATE_PCT * (8/10)) k,
        "pessimistic"⟩, (mem_projectScenario _ _ _ _ _ _).mpr ⟨k, hkd, rfl⟩, rfl⟩

end Pharmacy

namespace Pharmacy

theorem supply_formatted_keys (baseline : List (String × ℝ))
    (growth : List (String × RateData)) (d : ℕ)
    (hne : ∃ pr ∈ growth, ∃ v : ℝ, baseline.lookup pr.1 = some v)
    (y : ℤ) (sc : String) :
    (∃ r ∈ (formatSupplyRows (project_workforce_supply baseline growth d)).flatMap (·.2),
        r.year = y ∧ r.scenario = sc) ↔
      (START_PROJECTION_YEAR ≤ y ∧ y ≤ START_PROJECTION_YEAR + (d : ℤ) ∧
       sc ∈ (["baseline", "optimistic", "pessimistic"] : List String)) := by
  constructor
  · rintro ⟨r, hr, hy, hsc⟩
    rw [List.mem_flatMap] at hr
    obtain ⟨pr', hpr', hrmem⟩ := hr
    rw [formatSupplyRows, List.mem_map] at hpr'
    obtain ⟨pr0, hpr0, rfl⟩ := hpr'
    rw [project_workforce_supply, List.mem_filterMap] at hpr0
    obtain ⟨a, ha, hfa⟩ := hpr0
    cases hlook : baseline.lookup a.1 with
    | none => rw [hlook] at hfa; cases hfa
    | some v =>
      rw [hlook] at hfa
      cases hfa
      simp only at hrmem
      rw [create_scenarios_eq, projectScenarios] at hrmem
      simp only [List.mem_flatMap] at hrmem
      obtain ⟨s, hsmem, hr2⟩ := hrmem
      obtain ⟨pt, hptmem, rfl⟩ := List.mem_map.mp hr2
      obtain ⟨sc0, hsc0, rfl⟩ := List.mem_map.mp hsmem
      rw [mem_projectScenario] at hptmem
      obtain ⟨k, hk, rfl⟩ := hptmem
      simp only at hy hsc
      refine ⟨by omega, by omega, ?_⟩
      rw [← hsc]
      have hcase : sc0 = ("baseline", (1:ℝ)) ∨ sc0 = ("optimistic", 12/10) ∨
          sc0 = ("pessimistic", 8/10) := by
        simpa using hsc0
      rcases hcase with rfl | rfl | rfl <;> simp
  · rintro ⟨h1, h2, h3⟩
    obtain ⟨pr, hpr, v, hv⟩ := hne
    have hentry : (pr.1, projectScenarios v pr.2.annual_growth_rate_pct
        (create_scenarios growth) d) ∈ project_workforce_supply baseline growth d := by
      rw [project_workforce_supply, List.mem_filterMap]
      exact ⟨pr, hpr, by rw [hv]⟩
    have hk : ∃ k : ℕ, k ≤ d ∧ y = START_PROJECTION_YEAR + (k : ℤ) :=
      ⟨(y - START_PROJECTION_YEAR).toNat, by omega, by omega⟩
    obtain ⟨k, hkd, rfl⟩ := hk
    have key : ∀ (nm : String) (m : ℝ), (nm, m) ∈ create_scenarios (α := ℝ) growth →
        ∃ r ∈ (formatSupplyRows
            (project_workforce_supply baseline growth d)).flatMap (·.2),
          r.year = START_PROJECTION_YEAR + (k : ℤ) ∧ r.scenario = nm := by
      intro nm m hm
      refine ⟨SupplyRow.mk pr.1 (START_PROJECTION_YEAR + (k : ℤ))
        (calendar_to_financial_year (START_PROJECTION_YEAR + (k : ℤ)))
        (rhe (totalAt v (pr.2.annual_growth_rate_pct * m) k))
        (rhe (changeAt v (pr.2.annual_growth_rate_pct * m) k)) nm, ?_, rfl, rfl⟩
      rw [List.mem_flatMap]
      refine ⟨(pr.1, (projectScenarios v pr.2.annual_growth_rate_pct
          (create_scenarios growth) d).flatMap fun s => s.2.map fun pt =>
            SupplyRow.mk pr.1 pt.year (calendar_to_financial_year pt.year)
              (rhe pt.total) (rhe pt.change) s.1), ?_, ?_⟩
      · rw [formatSupplyRows, List.mem_map]
        exact ⟨_, hentry, rfl⟩
      · simp only [List.mem_flatMap]
        refine ⟨(nm, projectScenario START_PROJECTION_YEAR nm v
          (pr.2.annual_growth_rate_pct * m) d), ?_, ?_⟩
        · rw [projectScenarios]
          exact List.mem_map.mpr ⟨(nm, m), hm, rfl⟩
        · exact List.mem_map.mpr ⟨_,
            (mem_projectScenario _ _ _ _ _ _).mpr ⟨k, hkd, rfl⟩, rfl⟩
    simp only [List.mem_cons, List.not_mem_nil, or_false] at h3
    rcases h3 with rfl | rfl | rfl
    · exact key "baseline" 1 (by rw [create_scenarios_eq]; simp)
    · exact key "optimistic" (12/10) (by rw [create_scenarios_eq]; simp)
    · exact key "pessimistic" (8/10) (by rw [create_scenarios_eq]; simp)

end Pharmacy

namespace Pharmacy

/-- C4: every gap row satisfies `gap = supply - ops` exactly; a
`(year, scenario)` pair appears in the gap table iff it appears in both the
supply rows and the ops rows (the intersection of the key sets); the gap table
is sorted ascending by `(scenario, year)`; and for pipeline-produced input the
ops key set and the supply key set are each the full cross-product
`{start_year..start_year+duration} × {baseline, optimistic, pessimistic}`, so
the intersection is that cross-product. -/
theorem gap_table_spec (fs : List (String × List SupplyRow)) (ops : List OpsRow)
    (hfs : ∀ r ∈ fs.flatMap (·.2),
      r.financial_year = calendar_to_financial_year r.year)
    (hfo : ∀ o ∈ ops, o.financial_year = calendar_to_financial_year o.year) :
    (∀ row ∈ gapAnalysis fs ops, row.gap = row.supply - row.ops) ∧
    (∀ (y : ℤ) (sc : String),
      (∃ row ∈ gapAnalysis fs ops, row.year = y ∧ row.scenario = sc) ↔
        ((∃ r ∈ fs.flatMap (·.2), r.year = y ∧ r.scenario = sc) ∧
         (∃ o ∈ ops, o.year = y ∧ o.scenario = sc))) ∧
    List.Sorted gapLE (gapAnalysis fs ops) ∧
    (∀ (b : ℚ) (d : ℕ) (y : ℤ) (sc : String),
      (∃ o ∈ formatOpsRows (project_pharmacy_ops b d), o.year = y ∧ o.scenario = sc) ↔
        (START_PROJECTION_YEAR ≤ y ∧ y ≤ START_PROJECTION_YEAR + (d : ℤ) ∧
         sc ∈ (["baseline", "optimistic", "pessimistic"] : List String))) ∧
    (∀ (baseline : List (String × ℝ)) (growth : List (String × RateData)) (d : ℕ),
      (∃ pr ∈ growth, ∃ v : ℝ, baseline.lookup pr.1 = some v) →
      ∀ (y : ℤ) (sc : String),
      (∃ r ∈ (formatSupplyRows
          (project_workforce_supply baseline growth d)).flatMap (·.2),
          r.year = y ∧ r.scenario = sc) ↔
        (START_PROJECTION_YEAR ≤ y ∧ y ≤ START_PROJECTION_YEAR + (d : ℤ) ∧
         sc ∈ (["baseline", "optimistic", "pessimistic"] : List String))) := by
  refine ⟨?_, fun y sc => gap_keys_iff fs ops hfs hfo y sc, ?_,
    fun b d y sc => formatOps_keys b d y sc,
    fun baseline growth d hne y sc => supply_formatted_keys baseline growth d hne y sc⟩
  · intro row hrow
    rw [mem_gapAnalysis, mem_mergeGap] at hrow
    obtain ⟨s, _, o, _, _, _, _, rfl⟩ := hrow
    rfl
  · rw [gapAnalysis]
    exact List.sorted_insertionSort gapLE _

/-- Witness for C4 at a one-profession, one-scenario, one-year table. -/
theorem gap_table_spec_witness :
    (∀ r ∈ ([("Pharmacist",
        [⟨"Pharmacist", 2025, calendar_to_financial_year 2025, 100, 0, "baseline"⟩])] :
          List (String × List SupplyRow)).flatMap (·.2),
      r.financial_year = calendar_to_financial_year r.year) ∧
    (∀ o ∈ ([⟨2025, calendar_to_financial_year 2025, 90, 0, "baseline"⟩] :
        List OpsRow), o.financial_year = calendar_to_financial_year o.year) ∧
    List.Sorted gapLE (gapAnalysis
      [("Pharmacist",
        [⟨"Pharmacist", 2025, calendar_to_financial_year 2025, 100, 0, "baseline"⟩])]
      [⟨2025, calendar_to_financial_year 2025, 90, 0, "baseline"⟩]) :=
  have hfs : ∀ r ∈ ([("Pharmacist",
      [⟨"Pharmacist", 2025, calendar_to_financial_year 2025, 100, 0, "baseline"⟩])] :
        List (String × List SupplyRow)).flatMap (·.2),
      r.financial_year = calendar_to_financial_year r.year := by
    intro r hr
    simp at hr
    subst hr
    rfl
  have hfo : ∀ o ∈ ([⟨2025, calendar_to_financial_year 2025, 90, 0, "baseline"⟩] :
      List OpsRow), o.financial_year = calendar_to_financial_year o.year := by
    intro o ho
    simp at ho
    subst ho
    rfl
  ⟨hfs, hfo, (gap_table_spec _ _ hfs hfo).2.2.1⟩

end Pharmacy

namespace Pharmacy

/-- C5 (amended): when the supply and ops series do not share the same key
set, the gap step raises no error: the inner merge keeps exactly the keys
present on both sides and an unmatched `(year, scenario)` pair is silently
dropped from the joined gap table, while `format_projections` still returns
the gap DataFrame successfully. -/
theorem misaligned_pair_silently_dropped
    (fs : List (String × List SupplyRow)) (ops : List OpsRow) (y : ℤ) (sc : String)
    (p : String) (v : PyProj ℚ) (rest : List (String × PyProj ℚ))
    (fs2 : List (String × List SupplyRow)) (opsRows : List OpsRow)
    (hsup : ∃ r ∈ fs.flatMap (·.2), r.year = y ∧ r.scenario = sc)
    (hops : ∀ o ∈ ops, ¬(o.year = y ∧ o.scenario = sc))
    (hp : p ∉ (["baseline", "optimistic", "pessimistic"] : List String))
    (hfmt : formatSupplyShaped ((p, v) :: rest) = .ok fs2) :
    (∀ row ∈ gapAnalysis fs ops, ¬(row.year = y ∧ row.scenario = sc)) ∧
    format_projections ((p, v) :: rest) (some opsRows) =
      .ok (.gap (gapAnalysis fs2 opsRows)) := by
  constructor
  · rintro row hrow ⟨hy, hsc⟩
    rw [mem_gapAnalysis, mem_mergeGap] at hrow
    obtain ⟨s, hsmem, o, homem, ho1, _, ho3, rfl⟩ := hrow
    obtain ⟨orow, horow, rfl⟩ := List.mem_map.mp homem
    simp only at hy hsc ho1 ho3
    exact hops orow horow ⟨by rw [ho1, hy], by rw [ho3, hsc]⟩
  · rw [format_projections, if_neg hp, hfmt]
    rfl

/-- Counterexample to C5 as stated: a supply table carrying keys
(2025, "baseline") and (2025, "weird") joined against an ops table carrying
only (2025, "baseline") — `format_projections` returns a gap DataFrame with
no error and the unmatched (2025, "weird") pair is simply absent from it. -/
theorem misaligned_pair_counterexample :
    format_projections
      [("Pharmacist", PyProj.scen
        [("baseline", [⟨2025, (100 : ℚ), 0, "baseline"⟩]),
         ("weird", [⟨2025, (100 : ℚ), 0, "weird"⟩])])]
      (some [⟨2025, calendar_to_financial_year 2025, 90, 0, "baseline"⟩]) =
      .ok (.gap (gapAnalysis
        [("Pharmacist",
          [⟨"Pharmacist", 2025, calendar_to_financial_year 2025,
            rhe (100 : ℚ), rhe (0 : ℚ), "baseline"⟩,
           ⟨"Pharmacist", 2025, calendar_to_financial_year 2025,
            rhe (100 : ℚ), rhe (0 : ℚ), "weird"⟩])]
        [⟨2025, calendar_to_financial_year 2025, 90, 0, "baseline"⟩])) ∧
    (∃ r ∈ ([("Pharmacist",
        [⟨"Pharmacist", 2025, calendar_to_financial_year 2025,
          rhe (100 : ℚ), rhe (0 : ℚ), "baseline"⟩,
         ⟨"Pharmacist", 2025, calendar_to_financial_year 2025,
          rhe (100 : ℚ), rhe (0 : ℚ), "weird"⟩])] :
          List (String × List SupplyRow)).flatMap (·.2),
      r.year = 2025 ∧ r.scenario = "weird") ∧
    (∀ row ∈ gapAnalysis
        [("Pharmacist",
          [⟨"Pharmacist", 2025, calendar_to_financial_year 2025,
            rhe (100 : ℚ), rhe (0 : ℚ), "baseline"⟩,
           ⟨"Pharmacist", 2025, calendar_to_financial_year 2025,
            rhe (100 : ℚ), rhe (0 : ℚ), "weird"⟩])]
        [⟨2025, calendar_to_financial_year 2025, 90, 0, "baseline"⟩],
      row.scenario ≠ "weird") := by
  refine ⟨?_, ?_, ?_⟩
  · rw [format_projections, if_neg (by simp)]
    rw [formatSupplyShaped, formatSupplyShaped]
    rfl
  · refine ⟨⟨"Pharmacist", 2025, calendar_to_financial_year 2025,
      rhe (100 : ℚ), rhe (0 : ℚ), "weird"⟩, ?_, rfl, rfl⟩
    simp
  · intro row hrow
    rw [mem_gapAnalysis, mem_mergeGap] at hrow
    obtain ⟨s, hsmem, o, homem, _, _, ho3, rfl⟩ := hrow
    obtain ⟨orow, horow, rfl⟩ := List.mem_map.mp homem
    simp only [List.mem_singleton] at horow
    subst horow
    simp only
    rw [← ho3]
    simp

/-- Witness for C5 (amended) with a supply key (2026, "baseline") that the
single-row ops table does not carry. -/
theorem misaligned_pair_silently_dropped_witness :
    (∃ r ∈ ([("Pharmacist",
        [⟨"Pharmacist", 2026, calendar_to_financial_year 2026, 100, 0, "baseline"⟩])] :
          List (String × List SupplyRow)).flatMap (·.2),
      r.year = 2026 ∧ r.scenario = "baseline") ∧
    (∀ o ∈ ([⟨2025, calendar_to_financial_year 2025, 90, 0, "baseline"⟩] :
        List OpsRow), ¬(o.year = 2026 ∧ o.scenario = "baseline")) ∧
    ("Pharmacist" : String) ∉ (["baseline", "optimistic", "pessimistic"] : List String) ∧
    (∀ row ∈ gapAnalysis
        [("Pharmacist",
          [⟨"Pharmacist", 2026, calendar_to_financial_year 2026, 100, 0, "baseline"⟩])]
        [⟨2025, calendar_to_financial_year 2025, 90, 0, "baseline"⟩],
      ¬(row.year = 2026 ∧ row.scenario = "baseline")) :=
  have hsup : ∃ r ∈ ([("Pharmacist",
      [⟨"Pharmacist", 2026, calendar_to_financial_year 2026, 100, 0, "baseline"⟩])] :
        List (String × List SupplyRow)).flatMap (·.2),
      r.year = 2026 ∧ r.scenario = "baseline" :=
    ⟨⟨"Pharmacist", 2026, calendar_to_financial_year 2026, 100, 0, "baseline"⟩,
      by simp, rfl, rfl⟩
  have hops : ∀ o ∈ ([⟨2025, calendar_to_financial_year 2025, 90, 0, "baseline"⟩] :
      List OpsRow), ¬(o.year = 2026 ∧ o.scenario = "baseline") := by
    intro o ho
    simp only [List.mem_singleton] at ho
    subst ho
    simp
  have hp : ("Pharmacist" : String) ∉
      (["baseline", "optimistic", "pessimistic"] : List String) := by simp
  have hfmt : formatSupplyShaped
      ([("Pharmacist", PyProj.scen ([] : List (String × List (ProjPoint ℚ))))]) =
      .ok [("Pharmacist", [])] := by
    rw [formatSupplyShaped, formatSupplyShaped]
    rfl
  ⟨hsup, hops, hp,
    (misaligned_pair_silently_dropped _ _ 2026 "baseline" "Pharmacist"
      (PyProj.scen []) [] [("Pharmacist", [])] [] hsup hops hp hfmt).1⟩

end Pharmacy

namespace Pharmacy

/-- C9: `format_projections` classifies its input solely by whether the first
top-level key is one of "baseline", "optimistic", "pessimistic"; when it is,
the whole input — whatever its actual shape — is sent through the ops
formatter, and no gap table is ever produced even when `ops_projections` is
supplied. -/
theorem is_ops_dispatch_by_first_key (k : String) (v : PyProj ℚ)
    (rest : List (String × PyProj ℚ)) (ops_projections : Option (List OpsRow))
    (hk : k ∈ (["baseline", "optimistic", "pessimistic"] : List String)) :
    format_projections ((k, v) :: rest) ops_projections =
      (formatOpsShaped ((k, v) :: rest)).map FormatResult.ops ∧
    ∀ g : List GapRow,
      format_projections ((k, v) :: rest) ops_projections ≠ .ok (.gap g) := by
  have heq : format_projections ((k, v) :: rest) ops_projections =
      (formatOpsShaped ((k, v) :: rest)).map FormatResult.ops := by
    show (if k ∈ (["baseline", "optimistic", "pessimistic"] : List String) then
        (formatOpsShaped ((k, v) :: rest)).map FormatResult.ops
      else
        match ops_projections with
        | none => (formatSupplyShaped ((k, v) :: rest)).map FormatResult.supply
        | some opsRows =>
          (formatSupplyShaped ((k, v) :: rest)).map fun fs =>
            FormatResult.gap (gapAnalysis fs opsRows)) =
      (formatOpsShaped ((k, v) :: rest)).map FormatResult.ops
    rw [if_pos hk]
  refine ⟨heq, fun g hgap => ?_⟩
  rw [heq] at hgap
  cases hfmt : formatOpsShaped ((k, v) :: rest) with
  | error e => rw [hfmt] at hgap; cases hgap
  | ok rows => rw [hfmt] at hgap; cases hgap

/-- Witness for C9: a supply-shaped input whose first profession key is
"baseline", with ops projections supplied. -/
theorem is_ops_dispatch_by_first_key_witness :
    ("baseline" : String) ∈ (["baseline", "optimistic", "pessimistic"] : List String) ∧
    (format_projections
        [("baseline", PyProj.scen ([] : List (String × List (ProjPoint ℚ))))]
        (some []) =
      (formatOpsShaped
        [("baseline", PyProj.scen ([] : List (String × List (ProjPoint ℚ))))]).map
          FormatResult.ops ∧
     ∀ g : List GapRow,
      format_projections
        [("baseline", PyProj.scen ([] : List (String × List (ProjPoint ℚ))))]
        (some []) ≠ .ok (.gap g)) :=
  have hk : ("baseline" : String) ∈
      (["baseline", "optimistic", "pessimistic"] : List String) := by simp
  ⟨hk, is_ops_dispatch_by_first_key "baseline" (PyProj.scen []) [] (some []) hk⟩

/-- C10: every supply value in the gap table is the sum of the per-profession
`int(round(total))` conversions at its key, every ops value is an
`int(round(total))` conversion, and `gap` is the difference of those two
integers — the difference of the rounded totals, which (as the concrete
two-profession example with totals 100.4 + 100.4 against ops 0 shows) differs
from rounding the exact difference of the unrounded totals. -/
theorem gap_values_integer_rounded
    (P : List (String × List (String × List (ProjPoint ℚ))))
    (O : List (String × List (ProjPoint ℚ))) :
    (∀ pr ∈ P, ∀ s ∈ pr.2, ∀ pt ∈ s.2,
      SupplyRow.mk pr.1 pt.year (calendar_to_financial_year pt.year)
        (rhe pt.total) (rhe pt.change) s.1 ∈
        (formatSupplyRows P).flatMap (·.2)) ∧
    (∀ s ∈ O, ∀ pt ∈ s.2,
      OpsRow.mk pt.year (calendar_to_financial_year pt.year)
        (rhe pt.total) (rhe pt.change) s.1 ∈ formatOpsRows O) ∧
    (∀ row ∈ gapAnalysis (formatSupplyRows P) (formatOpsRows O),
      row.gap = row.supply - row.ops ∧
      row.supply = ((((formatSupplyRows P).flatMap (·.2)).filter
        (fun r => supplyKeyOf r =
          (row.year, row.financial_year, row.scenario))).map
            (·.total_registrants)).sum ∧
      ∃ o ∈ formatOpsRows O, o.year = row.year ∧ o.scenario = row.scenario ∧
        row.ops = o.total_ops_fte) ∧
    (rhe (100.4 : ℚ) + rhe (100.4 : ℚ) - rhe (0 : ℚ) = 200 ∧
     rhe ((100.4 : ℚ) + 100.4 - 0) = 201 ∧
     (200 : ℤ) ≠ 201) := by
  refine ⟨?_, ?_, ?_, ?_, ?_, by decide⟩
  · intro pr hpr s hs pt hpt
    rw [List.mem_flatMap]
    refine ⟨(pr.1, pr.2.flatMap fun s' => s'.2.map fun pt' =>
      SupplyRow.mk pr.1 pt'.year (calendar_to_financial_year pt'.year)
        (rhe pt'.total) (rhe pt'.change) s'.1), ?_, ?_⟩
    · rw [formatSupplyRows, List.mem_map]
      exact ⟨pr, hpr, rfl⟩
    · simp only [List.mem_flatMap]
      exact ⟨s, hs, List.mem_map.mpr ⟨pt, hpt, rfl⟩⟩
  · intro s hs pt hpt
    rw [formatOpsRows, List.mem_flatMap]
    exact ⟨s, hs, List.mem_map.mpr ⟨pt, hpt, rfl⟩⟩
  · intro row hrow
    rw [mem_gapAnalysis, mem_mergeGap] at hrow
    obtain ⟨s, hsmem, o, homem, ho1, ho2, ho3, rfl⟩ := hrow
    rw [mem_supplyTotals] at hsmem
    obtain ⟨r, hr, hrk, hval⟩ := hsmem
    obtain ⟨orow, horow, rfl⟩ := List.mem_map.mp homem
    exact ⟨rfl, hval, orow, horow, ho1, ho3, rfl⟩
  · norm_num [rhe]
  · norm_num [rhe]

end Pharmacy

